import Mathlib

/-!
Verification of the aptosgasprice dashboard.

The embedding models the pure computational core of `src/App.tsx` (and the
earlier revision of the app): JavaScript `parseInt(s, 10)`, `Math.round`,
the transaction-sample gas-price aggregation, the direct gas-estimate
mapping, the chart-update effect and the pause toggle of the dashboard.
-/

/-- JavaScript whitespace recognised by `parseInt` before the number. -/
def isJsWhitespace (c : Char) : Bool :=
  c == ' ' || c == '\t' || c == '\n' || c == '\r'

/-- Value of a decimal digit run, most significant first. -/
def decDigitsToNat (ds : List Char) : Nat :=
  ds.foldl (fun a c => a * 10 + (c.toNat - 48)) 0

/-- JavaScript `parseInt(s, 10)`: skip leading whitespace, optional sign,
then the longest prefix of decimal digits; `none` models `NaN` (no digits). -/
def jsParseInt (s : String) : Option Int :=
  let cs := s.data.dropWhile isJsWhitespace
  let signAndRest : Int × List Char :=
    match cs with
    | '-' :: t => (-1, t)
    | '+' :: t => (1, t)
    | t => (1, t)
  let ds := signAndRest.2.takeWhile Char.isDigit
  if ds.isEmpty then none
  else some (signAndRest.1 * (decDigitsToNat ds : Int))

/-- JavaScript `Math.round`: nearest integer, halves toward positive infinity. -/
def jsMathRound (x : ℚ) : ℤ := ⌊x + 1 / 2⌋

/-- Response of the node gas-estimate endpoint
(`client.estimateGasPrice()`): `gas_estimate` with two optional tiers. -/
structure GasEstimate where
  gas_estimate : Int
  prioritized_gas_estimate : Option Int
  deprioritized_gas_estimate : Option Int
deriving DecidableEq

/-- The `AptosGasPrice` type of `src/App.tsx`. -/
structure AptosGasPrice where
  fast : Int
  standard : Int
  slow : Int
  time : Int
deriving DecidableEq

/-- The `AptosGasPrice` type of the earlier revision (no `time` field). -/
structure AptosGasPriceV1 where
  fast : Int
  standard : Int
  slow : Int
deriving DecidableEq

/-- A transaction record as consumed by the aggregation: both fields are
optional (`'gas_unit_price' in tx`, `'gas_used' in tx`); `gas_unit_price`
is a string fed to `parseInt`, `gas_used` is only tested for presence. -/
structure Transaction where
  gas_unit_price : Option String
  gas_used : Option Nat
deriving DecidableEq

/-- Accumulator of the `reduce` in `useAptosTransactionsGasPrice`:
`[totalTxsGasUnitPrices, numTxs, maxPrice, minPrice]`. -/
structure TxAcc where
  total : Int
  numTxs : Nat
  maxPrice : Int
  minPrice : Int
deriving DecidableEq

/-- One step of the `reduce` in `useAptosTransactionsGasPrice`
(src/App.tsx lines 96-116). -/
def txReduceStep (acc : TxAcc) (tx : Transaction) : TxAcc :=
  match tx.gas_unit_price, tx.gas_used with
  | some priceStr, some _ =>
      match jsParseInt priceStr with
      | none => acc
      | some txGasUnitPrice =>
          { total := acc.total + txGasUnitPrice
            numTxs := acc.numTxs + 1
            maxPrice := max acc.maxPrice txGasUnitPrice
            minPrice := min acc.minPrice txGasUnitPrice }
  | _, _ => acc

/-- The whole `reduce` with its initial accumulator `[0, 0, 0, 1_000_000_000]`. -/
def txAggregate (txs : List Transaction) : TxAcc :=
  txs.foldl txReduceStep
    { total := 0, numTxs := 0, maxPrice := 0, minPrice := 1000000000 }

/-- Pure core of `useAptosTransactionsGasPrice` (src/App.tsx lines 80-131):
given the cached `query.data` (a transaction list, when a fetch has
succeeded) and the current time, produce the gas-price sample. -/
def useAptosTransactionsGasPrice (queryData : Option (List Transaction))
    (time : Int) : Option AptosGasPrice :=
  match queryData with
  | none => none
  | some data =>
      let acc := txAggregate data
      if acc.numTxs = 0 then none
      else
        some { fast := acc.maxPrice
               standard := jsMathRound ((acc.total : ℚ) / (acc.numTxs : ℚ))
               slow := acc.minPrice
               time := time }

/-- Pure core of `useAptosEstimatedGasPrice` (src/App.tsx lines 43-52). -/
def useAptosEstimatedGasPrice (queryData : Option GasEstimate)
    (time : Int) : Option AptosGasPrice :=
  match queryData with
  | none => none
  | some d =>
      some { fast := d.prioritized_gas_estimate.getD 0
             standard := d.gas_estimate
             slow := d.deprioritized_gas_estimate.getD 0
             time := time }

/-- Pure core of the earlier revision's `useAptosGasPrice`
(src/unnamed/part_001 lines 31-37). -/
def useAptosGasPrice (queryData : Option GasEstimate) : Option AptosGasPriceV1 :=
  match queryData with
  | none => none
  | some d =>
      some { fast := d.prioritized_gas_estimate.getD 0
             standard := d.gas_estimate
             slow := d.deprioritized_gas_estimate.getD 0 }

/-- The contribution of one transaction to the aggregation: its parsed
`gas_unit_price` when both fields are present and the price parses. -/
def validPrice (tx : Transaction) : Option Int :=
  match tx.gas_unit_price, tx.gas_used with
  | some priceStr, some _ => jsParseInt priceStr
  | _, _ => none

/-- The parsed prices of the entries that contribute to the aggregation. -/
def validPrices (txs : List Transaction) : List Int :=
  txs.filterMap validPrice

/-- Whether a produced sample is ordered: `slow ≤ standard ≤ fast`.
Vacuously true when no sample was produced. -/
def sampleOrdered (s : AptosGasPrice) : Bool :=
  decide (s.slow ≤ s.standard) && decide (s.standard ≤ s.fast)

/-- A point handed to the chart series: `{ value, time }`. -/
structure ChartPoint where
  value : Int
  time : Int
deriving DecidableEq

/-- A mutating call issued against the charting library. -/
inductive ChartCall where
  | createChartCall : ChartCall
  | addSeriesCall : ChartCall
  | setDataCall : List ChartPoint → ChartCall
  | updateCall : ChartPoint → ChartCall
deriving DecidableEq

/-- `lightweight-charts` series `update`: replaces the last point when the
time matches, appends otherwise. -/
def seriesUpdateData (data : List ChartPoint) (p : ChartPoint) : List ChartPoint :=
  match data.getLast? with
  | none => [p]
  | some q => if q.time = p.time then data.dropLast ++ [p] else data ++ [p]

/-- State owned by the `Chart` component: the chart handle (`chartRef`),
the series handle (`dataRef`), the data held by the series, and the log of
mutating calls issued against the charting library. -/
structure ChartState where
  chartRef : Bool
  dataRef : Bool
  seriesData : List ChartPoint
  calls : List ChartCall
deriving DecidableEq

/-- The `useEffect` body of the `Chart` component (src/App.tsx lines
160-207): skip when the container is unrendered or the update value is 0;
otherwise lazily create the chart and series (with `setData`), then feed
the update to the series. -/
def chartEffect (st : ChartState) (containerRendered : Bool)
    (updates : ChartPoint) : ChartState :=
  if containerRendered = false then st
  else if updates.value = 0 then st
  else
    let st1 :=
      if st.chartRef = false then
        let st2 := { st with chartRef := true
                             calls := st.calls ++ [ChartCall.createChartCall] }
        let st3 :=
          if st2.dataRef = false then
            { st2 with dataRef := true
                       calls := st2.calls ++ [ChartCall.addSeriesCall] }
          else st2
        { st3 with seriesData := [updates]
                   calls := st3.calls ++ [ChartCall.setDataCall [updates]] }
      else st
    if st1.dataRef = true then
      { st1 with seriesData := seriesUpdateData st1.seriesData updates
                 calls := st1.calls ++ [ChartCall.updateCall updates] }
    else st1

/-- The `enabled` option handed to the query by `PriceDashboard`:
`enabled: !isPaused`. -/
def queryEnabled (isPaused : Bool) : Bool := !isPaused

/-- State owned by `PriceDashboard`: the pause flag and the cached
`query.data` of the transactions query. -/
structure PriceDashboardState where
  isPaused : Bool
  queryData : Option (List Transaction)
deriving DecidableEq

/-- The pause button's click handler: `setPaused(current => !current)`. -/
def togglePause (st : PriceDashboardState) : PriceDashboardState :=
  { st with isPaused := !st.isPaused }

/-- The sample `PriceDashboard` displays: the transactions hook evaluated
on the cached query data. -/
def displayedSample (st : PriceDashboardState) (time : Int) :
    Option AptosGasPrice :=
  useAptosTransactionsGasPrice st.queryData time

/-- The update `PriceDashboard` forwards to `Chart` (src/App.tsx lines
221-226): `value: aptosGasPrice?.standard ?? 0`,
`time: Math.round((aptosGasPrice?.time ?? 0) / 1000)`. -/
def priceDashboardChartUpdate (aptosGasPrice : Option AptosGasPrice) : ChartPoint :=
  { value := (aptosGasPrice.map AptosGasPrice.standard).getD 0
    time := jsMathRound (((aptosGasPrice.map AptosGasPrice.time).getD 0 : ℚ) / 1000) }

theorem txReduceStep_eq_validPrice (acc : TxAcc) (tx : Transaction) :
    txReduceStep acc tx =
      match validPrice tx with
      | none => acc
      | some p =>
          { total := acc.total + p
            numTxs := acc.numTxs + 1
            maxPrice := max acc.maxPrice p
            minPrice := min acc.minPrice p } := by
  unfold txReduceStep validPrice
  cases tx.gas_unit_price <;> cases tx.gas_used <;> rfl

theorem foldl_txReduceStep_eq (txs : List Transaction) (acc : TxAcc) :
    txs.foldl txReduceStep acc =
      { total := acc.total + (validPrices txs).sum
        numTxs := acc.numTxs + (validPrices txs).length
        maxPrice := (validPrices txs).foldl max acc.maxPrice
        minPrice := (validPrices txs).foldl min acc.minPrice } := by
  induction txs generalizing acc with
  | nil => simp [validPrices]
  | cons tx rest ih =>
      rw [List.foldl_cons, txReduceStep_eq_validPrice]
      cases h : validPrice tx with
      | none =>
          have hv : validPrices (tx :: rest) = validPrices rest := by
            simp [validPrices, List.filterMap_cons, h]
          rw [hv]
          exact ih acc
      | some p =>
          have hv : validPrices (tx :: rest) = p :: validPrices rest := by
            simp [validPrices, List.filterMap_cons, h]
          rw [hv, ih]
          simp only [List.foldl_cons, List.sum_cons, List.length_cons,
            TxAcc.mk.injEq]
          refine ⟨?_, ?_, ?_, ?_⟩ <;> first | omega | trivial

theorem txAggregate_eq (txs : List Transaction) :
    txAggregate txs =
      { total := (validPrices txs).sum
        numTxs := (validPrices txs).length
        maxPrice := (validPrices txs).foldl max 0
        minPrice := (validPrices txs).foldl min 1000000000 } := by
  unfold txAggregate
  rw [foldl_txReduceStep_eq]
  simp

theorem le_foldl_max (vs : List ℤ) (a : ℤ) : a ≤ vs.foldl max a := by
  induction vs generalizing a with
  | nil => exact le_refl a
  | cons v rest ih =>
      rw [List.foldl_cons]
      exact le_trans (le_max_left a v) (ih (max a v))

theorem mem_le_foldl_max (vs : List ℤ) (a p : ℤ) : p ∈ vs → p ≤ vs.foldl max a := by
  induction vs generalizing a with
  | nil => intro hp; cases hp
  | cons v rest ih =>
      intro hp
      rw [List.foldl_cons]
      rcases List.mem_cons.mp hp with h | h
      · subst h
        exact le_trans (le_max_right a p) (le_foldl_max rest (max a p))
      · exact ih (max a v) h

theorem foldl_min_le (vs : List ℤ) (a : ℤ) : vs.foldl min a ≤ a := by
  induction vs generalizing a with
  | nil => exact le_refl a
  | cons v rest ih =>
      rw [List.foldl_cons]
      exact le_trans (ih (min a v)) (min_le_left a v)

theorem foldl_min_le_mem (vs : List ℤ) (a p : ℤ) : p ∈ vs → vs.foldl min a ≤ p := by
  induction vs generalizing a with
  | nil => intro hp; cases hp
  | cons v rest ih =>
      intro hp
      rw [List.foldl_cons]
      rcases List.mem_cons.mp hp with h | h
      · subst h
        exact le_trans (foldl_min_le rest (min a p)) (min_le_right a p)
      · exact ih (min a v) h

theorem foldl_min_of_le (vs : List ℤ) (a : ℤ) (h : ∀ p ∈ vs, a ≤ p) :
    vs.foldl min a = a := by
  induction vs with
  | nil => rfl
  | cons v rest ih =>
      rw [List.foldl_cons, min_eq_left (h v (List.mem_cons_self v rest))]
      exact ih fun p hp => h p (List.mem_cons_of_mem v hp)

theorem sum_le_length_mul (vs : List ℤ) (M : ℤ) (h : ∀ p ∈ vs, p ≤ M) :
    vs.sum ≤ (vs.length : ℤ) * M := by
  induction vs with
  | nil => simp
  | cons v rest ih =>
      have h1 : v ≤ M := h v (List.mem_cons_self v rest)
      have h2 : rest.sum ≤ (rest.length : ℤ) * M :=
        ih fun p hp => h p (List.mem_cons_of_mem v hp)
      simp only [List.sum_cons, List.length_cons]
      push_cast
      nlinarith [h1, h2]

theorem length_mul_le_sum (vs : List ℤ) (m : ℤ) (h : ∀ p ∈ vs, m ≤ p) :
    (vs.length : ℤ) * m ≤ vs.sum := by
  induction vs with
  | nil => simp
  | cons v rest ih =>
      have h1 : m ≤ v := h v (List.mem_cons_self v rest)
      have h2 : (rest.length : ℤ) * m ≤ rest.sum :=
        ih fun p hp => h p (List.mem_cons_of_mem v hp)
      simp only [List.sum_cons, List.length_cons]
      push_cast
      nlinarith [h1, h2]

theorem jsMathRound_intCast (z : ℤ) : jsMathRound (z : ℚ) = z := by
  unfold jsMathRound
  rw [Int.floor_int_add]
  norm_num

theorem jsMathRound_mono {x y : ℚ} (h : x ≤ y) : jsMathRound x ≤ jsMathRound y :=
  Int.floor_le_floor (by linarith)

/-- C1 (counterexample): the list `[{gas_unit_price: "10"}]` has an entry
with a parseInt-parsable `gas_unit_price`, yet the estimator returns no
sample at all, because the code also requires a `gas_used` field. -/
theorem txsGasPrice_claim_counterexample :
    useAptosTransactionsGasPrice
        (some [{ gas_unit_price := some "10", gas_used := none }]) 0 = none := by
  decide

/-- C1 (amended): for every transaction list with at least one entry
carrying both a parseInt-parsable `gas_unit_price` and a `gas_used` field,
all such valid prices lying in `[0, 1_000_000_000]`, the estimator returns
a sample whose `standard` is the rounded mean of the valid prices, whose
`fast` is their maximum and whose `slow` is their minimum. -/
theorem txsGasPrice_mean_max_min (txs : List Transaction) (t : Int)
    (hne : validPrices txs ≠ [])
    (hrange : ∀ p ∈ validPrices txs, 0 ≤ p ∧ p ≤ 1000000000) :
    (useAptosTransactionsGasPrice (some txs) t).map AptosGasPrice.standard =
        some (jsMathRound
          (((validPrices txs).sum : ℚ) / ((validPrices txs).length : ℚ))) ∧
    (useAptosTransactionsGasPrice (some txs) t).map AptosGasPrice.fast =
        (validPrices txs).max? ∧
    (useAptosTransactionsGasPrice (some txs) t).map AptosGasPrice.slow =
        (validPrices txs).min? := by
  obtain ⟨v, rest, hv⟩ := List.exists_cons_of_ne_nil hne
  have hv0 : 0 ≤ v ∧ v ≤ 1000000000 := by
    refine hrange v ?_
    rw [hv]
    exact List.mem_cons_self v rest
  have hlen : ¬((validPrices txs).length = 0) := by
    rw [hv]
    simp
  have hcore : useAptosTransactionsGasPrice (some txs) t =
      some { fast := (validPrices txs).foldl max 0
             standard := jsMathRound
               (((validPrices txs).sum : ℚ) / ((validPrices txs).length : ℚ))
             slow := (validPrices txs).foldl min 1000000000
             time := t } := by
    simp only [useAptosTransactionsGasPrice, txAggregate_eq, if_neg hlen]
  rw [hcore]
  refine ⟨rfl, ?_, ?_⟩
  · rw [hv]
    simp only [Option.map_some', List.foldl_cons]
    rw [max_eq_right hv0.1]
    rfl
  · rw [hv]
    simp only [Option.map_some', List.foldl_cons]
    rw [min_eq_right hv0.2]
    rfl

/-- C1 (witness): the amended theorem applied to a two-entry list. -/
theorem txsGasPrice_mean_max_min_witness :
    (useAptosTransactionsGasPrice
        (some [{ gas_unit_price := some "10", gas_used := some 5 },
               { gas_unit_price := some "20", gas_used := some 3 }]) 0).map
        AptosGasPrice.fast =
      (validPrices [{ gas_unit_price := some "10", gas_used := some 5 },
                    { gas_unit_price := some "20", gas_used := some 3 }]).max? :=
  (txsGasPrice_mean_max_min _ 0 (by decide) (by decide)).2.1

/-- C2: a transaction list in which no entry contributes to the
aggregation yields no sample for the cycle. -/
theorem txsGasPrice_no_valid_entries (txs : List Transaction) (t : Int)
    (h : validPrices txs = []) :
    useAptosTransactionsGasPrice (some txs) t = none := by
  simp [useAptosTransactionsGasPrice, txAggregate_eq, h]

/-- C2 (witness): a list whose only entry has an unparsable price. -/
theorem txsGasPrice_no_valid_entries_witness :
    useAptosTransactionsGasPrice
        (some [{ gas_unit_price := some "abc", gas_used := some 1 }]) 0 = none :=
  txsGasPrice_no_valid_entries _ 0 (by decide)

/-- C3: on the spec's concrete three-entry list the malformed entry is
skipped and the sample is `{standard: 15, fast: 20, slow: 10}`. -/
theorem txsGasPrice_example_skips_malformed :
    useAptosTransactionsGasPrice
        (some [{ gas_unit_price := some "10", gas_used := some 5 },
               { gas_unit_price := some "20", gas_used := some 3 },
               { gas_unit_price := some "abc", gas_used := some 1 }]) 0 =
      some { fast := 20, standard := 15, slow := 10, time := 0 } := by
  have hagg : txAggregate
      [{ gas_unit_price := some "10", gas_used := some 5 },
       { gas_unit_price := some "20", gas_used := some 3 },
       { gas_unit_price := some "abc", gas_used := some 1 }] =
      { total := 30, numTxs := 2, maxPrice := 20, minPrice := 10 } := by decide
  simp only [useAptosTransactionsGasPrice, hagg]
  norm_num [jsMathRound]

/-- C4: the direct gas-estimate response maps `gas_estimate` to
`standard`, `prioritized_gas_estimate` to `fast` and
`deprioritized_gas_estimate` to `slow`, missing optional fields defaulting
to 0; in particular `{100, 150, 80}` maps to `{standard:100, fast:150,
slow:80}`. -/
theorem estimatedGasPrice_mapping :
    (∀ (d : GasEstimate) (t : Int) (s : AptosGasPrice),
        useAptosEstimatedGasPrice (some d) t = some s →
          s.standard = d.gas_estimate ∧
          (∀ v, d.prioritized_gas_estimate = some v → s.fast = v) ∧
          (d.prioritized_gas_estimate = none → s.fast = 0) ∧
          (∀ v, d.deprioritized_gas_estimate = some v → s.slow = v) ∧
          (d.deprioritized_gas_estimate = none → s.slow = 0)) ∧
    useAptosEstimatedGasPrice
        (some { gas_estimate := 100, prioritized_gas_estimate := some 150,
                deprioritized_gas_estimate := some 80 }) 0 =
      some { fast := 150, standard := 100, slow := 80, time := 0 } := by
  constructor
  · intro d t s hs
    have hs' : s =
        { fast := d.prioritized_gas_estimate.getD 0
          standard := d.gas_estimate
          slow := d.deprioritized_gas_estimate.getD 0
          time := t } := by
      simpa [useAptosEstimatedGasPrice] using hs.symm
    subst hs'
    refine ⟨rfl, ?_, ?_, ?_, ?_⟩
    · intro v hv
      simp [hv]
    · intro hv
      simp [hv]
    · intro v hv
      simp [hv]
    · intro hv
      simp [hv]
  · rfl

/-- C4 (witness): the mapping applied to a response with both optional
fields missing: `fast` defaults to 0. -/
theorem estimatedGasPrice_mapping_witness :
    ({ fast := 0, standard := 100, slow := 0, time := 7 } : AptosGasPrice).fast = 0 :=
  (estimatedGasPrice_mapping.1
      { gas_estimate := 100, prioritized_gas_estimate := none,
        deprioritized_gas_estimate := none } 7
      { fast := 0, standard := 100, slow := 0, time := 7 } rfl).2.2.1 rfl

/-- C5: a chart update whose value is 0 leaves the chart state entirely
unchanged: no chart or series is created and no setData or update call is
issued. -/
theorem chartEffect_skips_zero_value (st : ChartState) (containerRendered : Bool)
    (updates : ChartPoint) (h : updates.value = 0) :
    chartEffect st containerRendered updates = st := by
  unfold chartEffect
  rw [h]
  simp

/-- C5 (witness): the skip applied to the fresh chart state. -/
theorem chartEffect_skips_zero_value_witness :
    chartEffect { chartRef := false, dataRef := false, seriesData := [], calls := [] }
        true { value := 0, time := 5 } =
      { chartRef := false, dataRef := false, seriesData := [], calls := [] } :=
  chartEffect_skips_zero_value _ _ _ rfl

/-- C6 (counterexample): for a sample with `time = 2000` the time
forwarded to the chart is `Math.round(2000 / 1000) = 2`, not the sample's
`time` field. -/
theorem dashboard_chart_time_counterexample :
    (priceDashboardChartUpdate
        (some { fast := 1, standard := 5, slow := 1, time := 2000 })).time ≠ 2000 := by
  have h : (priceDashboardChartUpdate
      (some { fast := 1, standard := 5, slow := 1, time := 2000 })).time =
      jsMathRound (((2000 : ℤ) : ℚ) / 1000) := rfl
  rw [h]
  norm_num [jsMathRound]

/-- C6 (amended): the dashboard forwards `value = standard` (0 when no
sample is present) and `time = Math.round(sample.time / 1000)` — the
sample's millisecond timestamp converted to seconds — to the chart. -/
theorem dashboard_chart_update_shape :
    (∀ s : AptosGasPrice,
        priceDashboardChartUpdate (some s) =
          { value := s.standard, time := jsMathRound ((s.time : ℚ) / 1000) }) ∧
    priceDashboardChartUpdate none = { value := 0, time := 0 } := by
  constructor
  · intro s
    rfl
  · have h0 : priceDashboardChartUpdate none =
        { value := 0, time := jsMathRound (((0 : ℤ) : ℚ) / 1000) } := rfl
    rw [h0]
    norm_num [jsMathRound, ChartPoint.mk.injEq]

/-- C7: the query's enabled flag is exactly the negation of the pause
flag; toggling pause flips the flag without touching the cached query data
and thus without changing the displayed sample, and toggling twice
restores the original state. -/
theorem pause_toggle_keeps_sample (st : PriceDashboardState) (t : Int) :
    queryEnabled st.isPaused = !st.isPaused ∧
    queryEnabled (togglePause st).isPaused = st.isPaused ∧
    displayedSample (togglePause st) t = displayedSample st t ∧
    togglePause (togglePause st) = st := by
  refine ⟨rfl, ?_, rfl, ?_⟩
  · simp [queryEnabled, togglePause]
  · cases st with
    | mk p q => simp [togglePause]

/-- C8: when all valid prices lie in `[0, 1_000_000_000]`, any sample the
transactions estimator produces satisfies `slow ≤ standard ≤ fast`. -/
theorem txsGasPrice_sample_ordered (txs : List Transaction) (t : Int)
    (hrange : ∀ p ∈ validPrices txs, 0 ≤ p ∧ p ≤ 1000000000) :
    (useAptosTransactionsGasPrice (some txs) t).all sampleOrdered = true := by
  by_cases hlen : (validPrices txs).length = 0
  · simp [useAptosTransactionsGasPrice, txAggregate_eq, hlen]
  · have hnpos : (0 : ℚ) < ((validPrices txs).length : ℚ) := by
      exact_mod_cast Nat.pos_of_ne_zero hlen
    have h1 : ((validPrices txs).foldl min 1000000000) *
        ((validPrices txs).length : ℤ) ≤ (validPrices txs).sum := by
      have := length_mul_le_sum (validPrices txs)
        ((validPrices txs).foldl min 1000000000)
        (fun p hp => foldl_min_le_mem (validPrices txs) 1000000000 p hp)
      linarith
    have h2 : (validPrices txs).sum ≤
        ((validPrices txs).foldl max 0) * ((validPrices txs).length : ℤ) := by
      have := sum_le_length_mul (validPrices txs) ((validPrices txs).foldl max 0)
        (fun p hp => mem_le_foldl_max (validPrices txs) 0 p hp)
      linarith
    have hq1 : (((validPrices txs).foldl min 1000000000 : ℤ) : ℚ) ≤
        ((validPrices txs).sum : ℚ) / ((validPrices txs).length : ℚ) := by
      rw [le_div_iff₀ hnpos]
      exact_mod_cast h1
    have hq2 : ((validPrices txs).sum : ℚ) / ((validPrices txs).length : ℚ) ≤
        (((validPrices txs).foldl max 0 : ℤ) : ℚ) := by
      rw [div_le_iff₀ hnpos]
      exact_mod_cast h2
    have hle1 := jsMathRound_mono hq1
    rw [jsMathRound_intCast] at hle1
    have hle2 := jsMathRound_mono hq2
    rw [jsMathRound_intCast] at hle2
    simp only [useAptosTransactionsGasPrice, txAggregate_eq, if_neg hlen,
      Option.all_some, sampleOrdered, Bool.and_eq_true, decide_eq_true_eq]
    exact ⟨hle1, hle2⟩

/-- C8 (witness): the ordering on a concrete two-entry list. -/
theorem txsGasPrice_sample_ordered_witness :
    (useAptosTransactionsGasPrice
        (some [{ gas_unit_price := some "10", gas_used := some 5 },
               { gas_unit_price := some "20", gas_used := some 3 }]) 0).all
        sampleOrdered = true :=
  txsGasPrice_sample_ordered _ 0 (by decide)

/-- C9: when every valid price exceeds `1_000_000_000`, the produced
`slow` is the sentinel `1_000_000_000` itself — which is not one of the
valid prices, hence not their true minimum. -/
theorem txsGasPrice_min_sentinel (txs : List Transaction) (t : Int)
    (hne : validPrices txs ≠ [])
    (hbig : ∀ p ∈ validPrices txs, 1000000000 < p) :
    (useAptosTransactionsGasPrice (some txs) t).map AptosGasPrice.slow =
        some 1000000000 ∧
    (1000000000 : ℤ) ∉ validPrices txs := by
  have hmin : (validPrices txs).foldl min 1000000000 = 1000000000 :=
    foldl_min_of_le _ _ (fun p hp => le_of_lt (hbig p hp))
  have hlen : ¬((validPrices txs).length = 0) := by
    intro h0
    exact hne (List.eq_nil_of_length_eq_zero h0)
  constructor
  · have hcore : useAptosTransactionsGasPrice (some txs) t =
        some { fast := (validPrices txs).foldl max 0
               standard := jsMathRound
                 (((validPrices txs).sum : ℚ) / ((validPrices txs).length : ℚ))
               slow := (validPrices txs).foldl min 1000000000
               time := t } := by
      simp only [useAptosTransactionsGasPrice, txAggregate_eq, if_neg hlen]
    rw [hcore]
    simp only [Option.map_some']
    rw [hmin]
  · intro hmem
    exact absurd (hbig _ hmem) (lt_irrefl _)

/-- C9 (witness): a single transaction priced above the sentinel. -/
theorem txsGasPrice_min_sentinel_witness :
    (useAptosTransactionsGasPrice
        (some [{ gas_unit_price := some "2000000000", gas_used := some 1 }]) 0).map
        AptosGasPrice.slow = some 1000000000 :=
  (txsGasPrice_min_sentinel _ 0 (by decide) (by decide)).1

/-- C10: for every direct gas-estimate response the earlier revision's
`useAptosGasPrice` and the later `useAptosEstimatedGasPrice` derive
identical `fast`, `standard` and `slow` values. -/
theorem gasPrice_revisions_agree (queryData : Option GasEstimate) (t : Int) :
    (useAptosGasPrice queryData).map (fun s => (s.fast, s.standard, s.slow)) =
      (useAptosEstimatedGasPrice queryData t).map
        (fun s => (s.fast, s.standard, s.slow)) := by
  cases queryData <;> rfl
